import Mathlib

/-!
Verification development for the DApp-KYC repository.

The definitions below are shallow embeddings of the TypeScript/JavaScript
sources (`src/lib/utils/crypto.ts`, `src/lib/services/zkproof.ts`, the
iExec service modules, the `useKYCVerification` hook, and the confidential
worker script).  Machine integers are modelled as `Nat`/`Int` with explicit
reductions mod 2^32 where the SHA-256 algorithm requires them; string
building mirrors the exact string operations of the source.  `new Date(...)`
values and other ambient effects (clock, randomness, network calls) are
passed in explicitly as parameters or environment records.
-/

set_option maxRecDepth 10000

/-! ## SHA-256

`hashData` in `src/lib/utils/crypto.ts` calls the platform primitive
`crypto.subtle.digest('SHA-256', utf8(data))` and hex-encodes the 32-byte
digest.  The worker uses node's `crypto.createHash('sha256')`, which is the
same function.  We embed SHA-256 (FIPS 180-4) concretely over byte lists. -/

/-- Reduce to a 32-bit word. -/
def w32 (x : Nat) : Nat := x % 4294967296

/-- 32-bit right rotation. -/
def rotr32 (n x : Nat) : Nat := w32 ((x >>> n) ||| (x <<< (32 - n)))

def sha256K : List Nat :=
  [1116352408, 1899447441, 3049323471, 3921009573, 961987163, 1508970993,
   2453635748, 2870763221, 3624381080, 310598401, 607225278, 1426881987,
   1925078388, 2162078206, 2614888103, 3248222580, 3835390401, 4022224774,
   264347078, 604807628, 770255983, 1249150122, 1555081692, 1996064986,
   2554220882, 2821834349, 2952996808, 3210313671, 3336571891, 3584528711,
   113926993, 338241895, 666307205, 773529912, 1294757372, 1396182291,
   1695183700, 1986661051, 2177026350, 2456956037, 2730485921, 2820302411,
   3259730800, 3345764771, 3516065817, 3600352804, 4094571909, 275423344,
   430227734, 506948616, 659060556, 883997877, 958139571, 1322822218,
   1537002063, 1747873779, 1955562222, 2024104815, 2227730452, 2361852424,
   2428436474, 2756734187, 3204031479, 3329325298]

def bigSigma0 (x : Nat) : Nat := rotr32 2 x ^^^ rotr32 13 x ^^^ rotr32 22 x

def bigSigma1 (x : Nat) : Nat := rotr32 6 x ^^^ rotr32 11 x ^^^ rotr32 25 x

def smallSigma0 (x : Nat) : Nat := rotr32 7 x ^^^ rotr32 18 x ^^^ (x >>> 3)

def smallSigma1 (x : Nat) : Nat := rotr32 17 x ^^^ rotr32 19 x ^^^ (x >>> 10)

def chFn (e f g : Nat) : Nat := (e &&& f) ^^^ ((e ^^^ 0xffffffff) &&& g)

def majFn (a b c : Nat) : Nat := (a &&& b) ^^^ (a &&& c) ^^^ (b &&& c)

structure Sha256State where
  a : Nat
  b : Nat
  c : Nat
  d : Nat
  e : Nat
  f : Nat
  g : Nat
  h : Nat

def sha256InitState : Sha256State :=
  ⟨1779033703, 3144134277, 1013904242, 2773480762, 1359893119, 2600822924, 528734635, 1541459225⟩

/-- FIPS 180-4 padding: append 0x80, zero bytes to reach 56 mod 64, then the
bit length as an 8-byte big-endian integer. -/
def padMessage (msg : List Nat) : List Nat :=
  let len := msg.length
  let bitLen := 8 * len
  let z := (120 - (len + 1) % 64) % 64
  msg ++ [0x80] ++ List.replicate z 0 ++
    [(bitLen >>> 56) &&& 255, (bitLen >>> 48) &&& 255, (bitLen >>> 40) &&& 255,
     (bitLen >>> 32) &&& 255, (bitLen >>> 24) &&& 255, (bitLen >>> 16) &&& 255,
     (bitLen >>> 8) &&& 255, bitLen &&& 255]

/-- Big-endian 4-byte groups to 32-bit words. -/
def bytesToWords : List Nat → List Nat
  | b0 :: b1 :: b2 :: b3 :: rest =>
      (b0 <<< 24 ||| b1 <<< 16 ||| b2 <<< 8 ||| b3) :: bytesToWords rest
  | _ => []

/-- Split into 64-byte blocks (fuelled; fuel is the list length, plenty). -/
def chunks64 : Nat → List Nat → List (List Nat)
  | 0, _ => []
  | _, [] => []
  | fuel + 1, l => l.take 64 :: chunks64 fuel (l.drop 64)

/-- Extend the 16-word block to the 64-word message schedule. -/
def extendSchedule : Nat → List Nat → List Nat
  | 0, w => w
  | fuel + 1, w =>
    let i := w.length
    let nw := w32 (smallSigma1 (w.getD (i - 2) 0) + w.getD (i - 7) 0 +
      smallSigma0 (w.getD (i - 15) 0) + w.getD (i - 16) 0)
    extendSchedule fuel (w ++ [nw])

def messageSchedule (block : List Nat) : List Nat := extendSchedule 48 (bytesToWords block)

def sha256Round (st : Sha256State) (k w : Nat) : Sha256State :=
  let t1 := w32 (st.h + bigSigma1 st.e + chFn st.e st.f st.g + k + w)
  let t2 := w32 (bigSigma0 st.a + majFn st.a st.b st.c)
  ⟨w32 (t1 + t2), st.a, st.b, st.c, w32 (st.d + t1), st.e, st.f, st.g⟩

def foldRounds : List (Nat × Nat) → Sha256State → Sha256State
  | [], st => st
  | (k, w) :: rest, st => foldRounds rest (sha256Round st k w)

def compressBlock (st : Sha256State) (block : List Nat) : Sha256State :=
  let fin := foldRounds (sha256K.zip (messageSchedule block)) st
  ⟨w32 (st.a + fin.a), w32 (st.b + fin.b), w32 (st.c + fin.c), w32 (st.d + fin.d),
   w32 (st.e + fin.e), w32 (st.f + fin.f), w32 (st.g + fin.g), w32 (st.h + fin.h)⟩

def wordBytes (x : Nat) : List Nat :=
  [(x >>> 24) &&& 255, (x >>> 16) &&& 255, (x >>> 8) &&& 255, x &&& 255]

def stateBytes (st : Sha256State) : List Nat :=
  wordBytes st.a ++ wordBytes st.b ++ wordBytes st.c ++ wordBytes st.d ++
  wordBytes st.e ++ wordBytes st.f ++ wordBytes st.g ++ wordBytes st.h

/-- SHA-256 of a byte list: the 32-byte digest. -/
def sha256 (msg : List Nat) : List Nat :=
  let padded := padMessage msg
  stateBytes ((chunks64 padded.length padded).foldl compressBlock sha256InitState)

/-- UTF-8 encoding of a single code point (`TextEncoder`). -/
def utf8Bytes (c : Nat) : List Nat :=
  if c < 128 then [c]
  else if c < 2048 then [192 ||| (c >>> 6), 128 ||| (c &&& 63)]
  else if c < 65536 then
    [224 ||| (c >>> 12), 128 ||| ((c >>> 6) &&& 63), 128 ||| (c &&& 63)]
  else
    [240 ||| (c >>> 18), 128 ||| ((c >>> 12) &&& 63), 128 ||| ((c >>> 6) &&& 63), 128 ||| (c &&& 63)]

def strBytes (s : String) : List Nat :=
  s.data.foldr (fun c acc => utf8Bytes c.toNat ++ acc) []

/-- Lowercase hex digit, as produced by `b.toString(16)`. -/
def hexChar (n : Nat) : Char := if n < 10 then Char.ofNat (48 + n) else Char.ofNat (87 + n)

def byteHex (b : Nat) : List Char := [hexChar (b / 16), hexChar (b % 16)]

def bytesToHex (bs : List Nat) : String :=
  String.mk (bs.foldr (fun b acc => byteHex b ++ acc) [])

/-- `hashData` from `src/lib/utils/crypto.ts`: SHA-256 of the UTF-8 bytes,
hex encoded with two lowercase digits per byte. -/
def hashData (s : String) : String := bytesToHex (sha256 (strBytes s))

/-- Auxiliary: the hex encoding has two characters per byte. -/
theorem bytesToHex_length (bs : List Nat) : (bytesToHex bs).length = 2 * bs.length := by
  have key : ∀ l : List Nat, (l.foldr (fun b acc => byteHex b ++ acc) []).length = 2 * l.length := by
    intro l
    induction l with
    | nil => rfl
    | cons b rest ih =>
      rw [List.foldr_cons, List.length_append, ih, List.length_cons]
      simp [byteHex]
      omega
  simpa [bytesToHex, String.length] using key bs

/-- Auxiliary: every SHA-256 digest is 32 bytes. -/
theorem sha256_length (msg : List Nat) : (sha256 msg).length = 32 := by
  simp [sha256, stateBytes, wordBytes]

/-- Auxiliary: `hashData` always yields a 64-character hex string. -/
theorem hashData_length (s : String) : (hashData s).length = 64 := by
  unfold hashData
  rw [bytesToHex_length, sha256_length]

/-! ## Data model (`src/lib/types/kyc.ts`)

`KYCData` keeps the raw strings exactly as the TypeScript interface does
(`documentType` is a string-literal union in TS, hence a `String` here).
The optional `documentHash` field is never read by the embedded code and is
omitted.  JavaScript `Date` values are modelled by `JSDate`: the calendar
fields observed through `getFullYear`/`getMonth() + 1`/`getDate` plus the
epoch-milliseconds value observed through `getTime`/comparison.  `new
Date(string)` is platform parsing and is passed in as an explicit
`parseDate` function; `new Date()` ("now") is an explicit `today`
parameter. -/

structure JSDate where
  year : Int
  month : Int
  day : Int
  ms : Int

structure KYCData where
  documentType : String
  documentNumber : String
  fullName : String
  dateOfBirth : String
  nationality : String
  expiryDate : String

structure ZKProof where
  proof : String
  publicSignals : List String
  nullifierHash : String

inductive ZKCircuitType
  | age_verification
  | nationality_check
  | document_validity
  | full_kyc

structure ZKVerificationResult where
  isValid : Bool
  nullifierHash : String
  publicOutputs : List String

structure VerificationAttributes where
  isAdult : Bool
  isNotExpired : Bool
  isNotSanctioned : Bool

structure VerificationResult where
  isValid : Bool
  timestamp : Int
  proofHash : String
  enclaveSignature : String
  attributes : VerificationAttributes

structure ProtectedData where
  address : String
  dataHash : String
  timestamp : Int
  encryptedData : Option String

/-! ## `src/lib/utils/crypto.ts` -/

/-- `generateNullifierHash(documentHash, userAddress)`:
digest of `documentHash ++ ":" ++ userAddress ++ ":nullifier"`. -/
def generateNullifierHash (documentHash userAddress : String) : String :=
  hashData (documentHash ++ ":" ++ userAddress ++ ":nullifier")

/-- `JSON.stringify` escaping for string values (quote, backslash and the
common control characters; other characters are emitted verbatim). -/
def jsonEscape (s : String) : String :=
  String.mk (s.data.foldr (fun c acc =>
    if c = '"' then '\\' :: '"' :: acc
    else if c = '\\' then '\\' :: '\\' :: acc
    else if c = '\n' then '\\' :: 'n' :: acc
    else if c = '\r' then '\\' :: 'r' :: acc
    else if c = '\t' then '\\' :: 't' :: acc
    else c :: acc) [])

/-- `${bool}` interpolation and JSON serialization of a boolean. -/
def jsBool (b : Bool) : String := if b then "true" else "false"

/-- `createCommitment(kycData)`: digest of the JSON object with fields
documentType, documentNumber, dateOfBirth, nationality in that order. -/
def createCommitment (kycData : KYCData) : String :=
  hashData ("\x7b\"documentType\":\"" ++ jsonEscape kycData.documentType ++
    "\",\"documentNumber\":\"" ++ jsonEscape kycData.documentNumber ++
    "\",\"dateOfBirth\":\"" ++ jsonEscape kycData.dateOfBirth ++
    "\",\"nationality\":\"" ++ jsonEscape kycData.nationality ++ "\"\x7d")

/-- `isDocumentValid(expiryDate)`: `new Date(expiryDate) > new Date()`,
i.e. comparison of the epoch-millisecond values. -/
def isDocumentValid (parseDate : String → JSDate) (expiryDate : String) (today : JSDate) : Bool :=
  decide ((parseDate expiryDate).ms > today.ms)

/-- `isAdult(dateOfBirth, minimumAge = 18)` from `crypto.ts`.  `monthDiff`
uses `getMonth()` (0-based) differences, which equal the 1-based month
differences used here. -/
def isAdult (parseDate : String → JSDate) (dateOfBirth : String) (today : JSDate)
    (minimumAge : Int := 18) : Bool :=
  let birthDate := parseDate dateOfBirth
  let age := today.year - birthDate.year
  let monthDiff := today.month - birthDate.month
  if monthDiff < 0 ∨ (monthDiff = 0 ∧ today.day < birthDate.day) then
    decide (age - 1 ≥ minimumAge)
  else
    decide (age ≥ minimumAge)

/-! ## `src/lib/services/zkproof.ts` -/

/-- The age computed inside `generateAgeVerificationProof`: year difference,
decremented when `monthDiff < 0 || (monthDiff === 0 && today.getDate() <
birthDate.getDate())`. -/
def computedAge (birthDate today : JSDate) : Int :=
  let age := today.year - birthDate.year
  let monthDiff := today.month - birthDate.month
  if monthDiff < 0 ∨ (monthDiff = 0 ∧ today.day < birthDate.day) then age - 1 else age

/-- `generateAgeVerificationProof(dateOfBirth, minimumAge, userAddress)`.
`proofInput` is the `JSON.stringify` of the private witness plus
`minimumAge` and `result`, in insertion order. -/
def generateAgeVerificationProof (parseDate : String → JSDate) (dateOfBirth : String)
    (minimumAge : Nat) (userAddress : String) (today : JSDate) : ZKProof :=
  let birthDate := parseDate dateOfBirth
  let age := computedAge birthDate today
  let isAboveMinimumAge : Bool := decide (age ≥ (minimumAge : Int))
  let proofInput :=
    "\x7b\"birthYear\":" ++ toString birthDate.year ++
    ",\"birthMonth\":" ++ toString birthDate.month ++
    ",\"birthDay\":" ++ toString birthDate.day ++
    ",\"currentYear\":" ++ toString today.year ++
    ",\"currentMonth\":" ++ toString today.month ++
    ",\"currentDay\":" ++ toString today.day ++
    ",\"minimumAge\":" ++ toString minimumAge ++
    ",\"result\":" ++ jsBool isAboveMinimumAge ++ "\x7d"
  let proofHash := hashData proofInput
  { proof := proofHash
    publicSignals :=
      [if isAboveMinimumAge then "1" else "0", toString minimumAge, toString today.year]
    nullifierHash := generateNullifierHash proofHash userAddress }

/-- `generateDocumentValidityProof(expiryDate, documentType, userAddress)`.
`daysUntilExpiry = Math.floor((expiry - today) / 86400000)` is floor
division (`Int.fdiv`). -/
def generateDocumentValidityProof (parseDate : String → JSDate) (expiryDate : String)
    (documentType : String) (userAddress : String) (today : JSDate) : ZKProof :=
  let expiry := parseDate expiryDate
  let isValid : Bool := decide (expiry.ms > today.ms)
  let daysUntilExpiry : Int := Int.fdiv (expiry.ms - today.ms) 86400000
  let hasMinimumValidity : Bool := decide (daysUntilExpiry > 30)
  let proofInput :=
    "\x7b\"documentType\":\"" ++ jsonEscape documentType ++
    "\",\"expiryYear\":" ++ toString expiry.year ++
    ",\"expiryMonth\":" ++ toString expiry.month ++
    ",\"isValid\":" ++ jsBool isValid ++
    ",\"hasMinimumValidity\":" ++ jsBool hasMinimumValidity ++ "\x7d"
  let proofHash := hashData proofInput
  { proof := proofHash
    publicSignals := [if isValid then "1" else "0", if hasMinimumValidity then "1" else "0"]
    nullifierHash := generateNullifierHash proofHash userAddress }

structure FullKYCOptions where
  minimumAge : Nat := 18
  allowedNationalities : Option (List String) := none

/-- `generateFullKYCProof(kycData, userAddress, options)`.  `timestampMs`
is the `Date.now()` freshness timestamp mixed into `combinedInput`. -/
def generateFullKYCProof (parseDate : String → JSDate) (kycData : KYCData)
    (userAddress : String) (options : FullKYCOptions) (today : JSDate)
    (timestampMs : Int) : ZKProof :=
  let minimumAge := options.minimumAge
  let ageProof := generateAgeVerificationProof parseDate kycData.dateOfBirth minimumAge userAddress today
  let docProof := generateDocumentValidityProof parseDate kycData.expiryDate kycData.documentType userAddress today
  let nationalityValid : Bool :=
    match options.allowedNationalities with
    | some allowed => if allowed.length > 0 then allowed.contains kycData.nationality else true
    | none => true
  let combinedInput :=
    "\x7b\"ageProof\":\"" ++ ageProof.proof ++
    "\",\"docProof\":\"" ++ docProof.proof ++
    "\",\"nationalityValid\":" ++ jsBool nationalityValid ++
    ",\"timestamp\":" ++ toString timestampMs ++ "\x7d"
  let combinedProofHash := hashData combinedInput
  let nullifierHash :=
    generateNullifierHash (kycData.documentType ++ ":" ++ hashData kycData.documentNumber) userAddress
  let isAgeValid : Bool := ageProof.publicSignals.headD "" == "1"
  let isDocValid : Bool := docProof.publicSignals.headD "" == "1"
  let isFullyValid : Bool := isAgeValid && isDocValid && nationalityValid
  { proof := combinedProofHash
    publicSignals :=
      [if isFullyValid then "1" else "0",
       if isAgeValid then "1" else "0",
       if isDocValid then "1" else "0",
       if nationalityValid then "1" else "0",
       toString minimumAge]
    nullifierHash := nullifierHash }

/-- `verifyZKProof(proof, circuitType)`: structural check (`proof.proof`
truthy, i.e. non-empty, of length 64, and at least one public signal),
then the success indicator `publicSignals[0] === "1"`.  Total: never
throws. -/
def verifyZKProof (proof : ZKProof) (_circuitType : ZKCircuitType) : ZKVerificationResult :=
  let isValidFormat : Bool :=
    (proof.proof != "") && proof.proof.length == 64 && decide (proof.publicSignals.length > 0)
  if !isValidFormat then
    { isValid := false, nullifierHash := proof.nullifierHash, publicOutputs := [] }
  else
    { isValid := proof.publicSignals.headD "" == "1"
      nullifierHash := proof.nullifierHash
      publicOutputs := proof.publicSignals }

/-! ## Network profiles (`src/lib/types/kyc.ts`) and `getNetworkConfig`

The repository contains two versions of the iExec service module, each with
its own `getNetworkConfig`: the one in `src/unnamed/part_004` maps chain ID
421614 to the mainnet profile, the one in `src/unnamed/part_001` maps
42161 to the mainnet profile.  Both are embedded, in separate
namespaces. -/

structure NetworkConfig where
  chainId : Nat
  name : String
  workerpoolAddress : String
  dataProtectorSubgraph : String
  ipfsGateway : String
  ipfsUploadUrl : String
  isExperimental : Bool
deriving DecidableEq

def ARBITRUM_SEPOLIA_CONFIG : NetworkConfig :=
  { chainId := 421614
    name := "arbitrum-sepolia-testnet"
    workerpoolAddress := "0xB967057a21dc6A66A29721d96b8Aa7454B7c383F"
    dataProtectorSubgraph := "https://thegraph.arbitrum-sepolia-testnet.iex.ec/api/subgraphs/id/5YjRPLtjS6GH6bB4yY55Qg4HzwtRGQ8TaHtGf9UBWWd"
    ipfsGateway := "https://ipfs-gateway.arbitrum-sepolia-testnet.iex.ec"
    ipfsUploadUrl := "https://ipfs-upload.arbitrum-sepolia-testnet.iex.ec"
    isExperimental := true }

def ARBITRUM_MAINNET_CONFIG : NetworkConfig :=
  { chainId := 42161
    name := "arbitrum-mainnet"
    workerpoolAddress := "0x2C06263943180Cc024dAFfeEe15612DB6e5fD248"
    dataProtectorSubgraph := "https://thegraph.arbitrum.iex.ec/api/subgraphs/id/Ep5zs5zVr4tDiVuQJepUu51e5eWYJpka624X4DMBxe3u"
    ipfsGateway := "https://ipfs-gateway.arbitrum-mainnet.iex.ec"
    ipfsUploadUrl := "https://ipfs-upload.arbitrum-mainnet.iex.ec"
    isExperimental := false }

namespace Part004

/-- `getNetworkConfig` from `src/unnamed/part_004` (iExec service module with
logging): `if (chainId === 421614) return ARBITRUM_MAINNET_CONFIG; return
ARBITRUM_SEPOLIA_CONFIG;`. -/
def getNetworkConfig (chainId : Nat) : NetworkConfig :=
  if chainId = 421614 then ARBITRUM_MAINNET_CONFIG else ARBITRUM_SEPOLIA_CONFIG

end Part004

namespace Part001

/-- `getNetworkConfig` from `src/unnamed/part_001`: `if (chainId === 42161)
return ARBITRUM_MAINNET_CONFIG; return ARBITRUM_SEPOLIA_CONFIG;`. -/
def getNetworkConfig (chainId : Nat) : NetworkConfig :=
  if chainId = 42161 then ARBITRUM_MAINNET_CONFIG else ARBITRUM_SEPOLIA_CONFIG

end Part001

/-- `simulateVerification(kycData, userAddress)` from the iExec service
module (`src/unnamed/part_004`): the local deterministic fallback applying
the same adult/expiry checks directly.  `nowMs` stands for `Date.now()`. -/
def simulateVerification (parseDate : String → JSDate) (kycData : KYCData)
    (userAddress : String) (today : JSDate) (nowMs : Int) : VerificationResult :=
  let isValidDocument := isDocumentValid parseDate kycData.expiryDate today
  let isUserAdult := isAdult parseDate kycData.dateOfBirth today 18
  let isNotSanctioned := true
  let isValid := isValidDocument && isUserAdult && isNotSanctioned
  let proofData :=
    userAddress ++ ":" ++ kycData.documentType ++ ":" ++ jsBool isValid ++ ":" ++ toString nowMs
  let proofHash := hashData proofData
  let enclaveSignature := hashData (proofHash ++ ":enclave:signature")
  { isValid := isValid
    timestamp := nowMs
    proofHash := proofHash
    enclaveSignature := enclaveSignature
    attributes :=
      { isAdult := isUserAdult, isNotExpired := isValidDocument, isNotSanctioned := isNotSanctioned } }

/-! ## `useKYCVerification` (`src/unnamed/part_003`)

The hook's `startVerification` is embedded as a function from an explicit
environment (clock, crypto randomness, wallet provider behaviour, iExec
backend responses) to the sequence of states produced by the successive
`updateState`/`setState` calls, starting from the initial state, together
with the list of remote/fallback operations that were actually invoked.
Backend calls that can reject are `Except`-valued in the environment; a
`.error` value models a thrown/rejected promise that the hook's `catch`
receives. -/

inductive VerificationStatus
  | idle
  | connecting
  | encrypting
  | protecting
  | computing
  | verifying
  | submitting
  | completed
  | failed
deriving DecidableEq

def VERIFICATION_STEPS : List String :=
  ["Connect Wallet", "Submit Identity", "Encrypt Data", "Generate ZK Proof",
   "TEE Verification", "Submit On-Chain", "Complete"]

structure KYCVerificationState where
  status : VerificationStatus
  currentStep : Nat
  totalSteps : Nat
  protectedData : Option ProtectedData
  zkProof : Option ZKProof
  verificationResult : Option VerificationResult
  transactionHash : Option String
  error : Option String

def initialKYCState : KYCVerificationState :=
  { status := .idle
    currentStep := 0
    totalSteps := VERIFICATION_STEPS.length
    protectedData := none
    zkProof := none
    verificationResult := none
    transactionHash := none
    error := none }

/-- `reset()` replaces the state with exactly the initial state object. -/
def reset : KYCVerificationState := initialKYCState

/-- The remote confidential-execution operations (and the simulation
fallback) that `startVerification` may invoke. -/
inductive RemoteEvent
  | protect
  | grant
  | execute
  | simulate
deriving DecidableEq

structure HookEnv where
  parseDate : String → JSDate
  today : JSDate
  nowMs : Int
  encryptResult : Except String String
  provider : Bool
  chainId : Option Int
  providerTestOk : Bool
  initOk : Bool
  coreOk : Bool
  protectResult : Except String String
  grantOk : Bool
  executeResult : Except String VerificationResult
  txHash : String

def chainIdText : Option Int → String
  | some c => toString c
  | none => "undefined"

/-- The `verifying` phase of `startVerification`: the provider branch runs
chain check, provider test, DataProtector initialization, then
protect → grantAccess → execute; without a provider it falls back to
`simulateVerification`.  Returns the attestation (or the thrown error
message) plus the remote operations that were invoked. -/
def verifyingStep (env : HookEnv) (kycData : KYCData) (userAddress : String) :
    Except String VerificationResult × List RemoteEvent :=
  if env.provider then
    if env.chainId ≠ some 421614 then
      (.error ("Please switch to Arbitrum Sepolia testnet (Chain ID: 421614). Current chain: " ++
        chainIdText env.chainId), [])
    else if !env.providerTestOk then
      (.error "Wallet connection is not working properly. Please reconnect your wallet.", [])
    else if !env.initOk then
      (.error "Failed to initialize iExec DataProtector - check wallet connection and network", [])
    else if !env.coreOk then
      (.error "iExec DataProtector core not properly initialized - API may have changed", [])
    else
      match env.protectResult with
      | .error e => (.error e, [.protect])
      | .ok _ =>
        if !env.grantOk then
          (.error "Failed to grant access to verification app", [.protect, .grant])
        else
          match env.executeResult with
          | .error e => (.error e, [.protect, .grant, .execute])
          | .ok vr => (.ok vr, [.protect, .grant, .execute])
  else
    (.ok (simulateVerification env.parseDate kycData userAddress env.today env.nowMs), [.simulate])

/-- `startVerification(kycData)` from `src/unnamed/part_003`: the sequence
of states after each `updateState` (the initial state first), plus the
remote operations invoked. -/
def startVerification (env : HookEnv) (kycData : KYCData) (userAddress : Option String) :
    List KYCVerificationState × List RemoteEvent :=
  match userAddress with
  | none =>
    ([initialKYCState,
      { initialKYCState with error := some "Please connect your wallet first", status := .failed }],
     [])
  | some u =>
    let s1 := { initialKYCState with status := .encrypting, currentStep := 2 }
    match env.encryptResult with
    | .error e =>
      ([initialKYCState, s1, { s1 with error := some e, status := .failed }], [])
    | .ok encryptedData =>
      let pd : ProtectedData :=
        { address := u
          dataHash := createCommitment kycData
          timestamp := env.nowMs
          encryptedData := some encryptedData }
      let s2 := { s1 with protectedData := some pd }
      let s3 := { s2 with status := .computing, currentStep := 3 }
      let zkProof := generateFullKYCProof env.parseDate kycData u { minimumAge := 18 } env.today env.nowMs
      let zkVerification := verifyZKProof zkProof .full_kyc
      if !zkVerification.isValid then
        ([initialKYCState, s1, s2, s3,
          { s3 with
            error := some "ZK proof verification failed. Please check your information.",
            status := .failed }],
         [])
      else
        let s4 := { s3 with zkProof := some zkProof }
        let s5 := { s4 with status := .verifying, currentStep := 4 }
        match verifyingStep env kycData u with
        | (.error e, events) =>
          ([initialKYCState, s1, s2, s3, s4, s5, { s5 with error := some e, status := .failed }],
           events)
        | (.ok vr, events) =>
          if !vr.isValid then
            ([initialKYCState, s1, s2, s3, s4, s5,
              { s5 with
                error := some "Identity verification failed. Please ensure your documents are valid.",
                status := .failed, verificationResult := some vr }],
             events)
          else
            let s6 := { s5 with verificationResult := some vr }
            let s7 := { s6 with status := .submitting, currentStep := 5 }
            let s8 :=
              { s7 with transactionHash := some env.txHash, status := .completed, currentStep := 6 }
            ([initialKYCState, s1, s2, s3, s4, s5, s6, s7, s8], events)

/-! ## Confidential worker (iExec iApp `main`, in `src/lib/logger.ts`)

The worker deserializes up to `IEXEC_BULK_SLICE_SIZE` protected KYC
documents (each item's failures are caught per item), hashes and copies the
extra input files (failures there propagate to the top-level catch), writes
one `kyc-verification-result.json` report and — in the `finally` block —
exactly one `computed.json` completion descriptor.  App/requester secrets
only influence logging and are not modelled.  The run is embedded as the
list of file writes the invocation performs; winston log output is the
out-of-scope logging collaborator and is not part of the write list. -/

/-- ASCII uppercase letter, as matched by the regex class `[A-Z]`. -/
def isUpperAlpha (c : Char) : Bool := decide ('A' ≤ c ∧ c ≤ 'Z')

/-- ASCII lowercase letter (`[a-z]`). -/
def isLowerAlpha (c : Char) : Bool := decide ('a' ≤ c ∧ c ≤ 'z')

/-- ASCII digit (`\d`). -/
def isDigitCh (c : Char) : Bool := decide ('0' ≤ c ∧ c ≤ '9')

/-- `[A-Z0-9]`. -/
def isUpperOrDigit (c : Char) : Bool := isUpperAlpha c || isDigitCh c

/-- `new RegExp-style test for a run of at least `need` consecutive
characters satisfying `p` (so `/[A-Z0-9]\x7b6,9\x7d/.test` is `hasRun
isUpperOrDigit 6`). `run` is the length of the current run. -/
def hasRun (p : Char → Bool) (need : Nat) : List Char → Nat → Bool
  | [], _ => false
  | c :: rest, run =>
    if p c then decide (run + 1 ≥ need) || hasRun p need rest (run + 1)
    else hasRun p need rest 0

/-- Skip a maximal run of lowercase letters. -/
def skipLowers : List Char → List Char
  | [] => []
  | c :: rest => if isLowerAlpha c then skipLowers rest else c :: rest

/-- Does `/[A-Z][a-z]+ [A-Z][a-z]+/` match at the head of the list? -/
def nameAt : List Char → Bool
  | c1 :: c2 :: rest =>
    isUpperAlpha c1 && isLowerAlpha c2 &&
      (match skipLowers rest with
       | ' ' :: c3 :: c4 :: _ => isUpperAlpha c3 && isLowerAlpha c4
       | _ => false)
  | _ => false

/-- Does `/\d\x7b2\x7d\/\d\x7b2\x7d\/\d\x7b4\x7d/` match at the head? -/
def dateAt : List Char → Bool
  | d1 :: d2 :: s1 :: d3 :: d4 :: s2 :: d5 :: d6 :: d7 :: d8 :: _ =>
    isDigitCh d1 && isDigitCh d2 && (s1 == '/') && isDigitCh d3 && isDigitCh d4 &&
      (s2 == '/') && isDigitCh d5 && isDigitCh d6 && isDigitCh d7 && isDigitCh d8
  | _ => false

/-- `regex.test`: does the pattern match at some position? -/
def anyTail (p : List Char → Bool) : List Char → Bool
  | [] => p []
  | c :: rest => p (c :: rest) || anyTail p rest

/-- `validatePassportFormat(data)`. -/
def validatePassportFormat (data : String) : Bool :=
  hasRun isUpperOrDigit 6 data.data 0 && anyTail nameAt data.data && anyTail dateAt data.data

/-- `validateIdCardFormat(data)`. -/
def validateIdCardFormat (data : String) : Bool :=
  hasRun isUpperOrDigit 8 data.data 0 && anyTail nameAt data.data

structure KYCChecks where
  hasData : Bool
  validType : Bool
  validUserId : Bool
  dataIntegrity : Bool
  formatValid : Bool

/-- `performKYCVerification`: the structural checks and resulting status
string.  The function body cannot throw, so the `ERROR` catch branch of
the source is unreachable in the embedding. -/
def performKYCVerification (documentData documentType userId documentHash : String) :
    String × KYCChecks :=
  let checks : KYCChecks :=
    { hasData := !documentData.isEmpty
      validType := ["passport", "id_card", "drivers_license", "utility_bill"].contains documentType
      validUserId := !userId.isEmpty
      dataIntegrity := documentHash.length == 64
      formatValid :=
        if documentType == "passport" then validatePassportFormat documentData
        else if documentType == "id_card" then validateIdCardFormat documentData
        else true }
  let allChecksPass :=
    checks.hasData && checks.validType && checks.validUserId && checks.dataIntegrity &&
      checks.formatValid
  (if allChecksPass then "VERIFIED" else "FAILED", checks)

structure WorkerItem where
  documentData : String
  documentType : String
  userId : String

/-- One entry of `verificationResults`: either a processed document or the
per-item error record pushed by the inner `catch`. -/
inductive ItemOutcome
  | processed (userId documentType documentHash verificationStatus : String)
      (checks : KYCChecks) (timestamp : String)
  | errored (documentIndex : Nat) (message : String) (timestamp : String)

/-- `r.verificationStatus === 'VERIFIED'` (error entries have no status). -/
def ItemOutcome.isVerifiedEntry : ItemOutcome → Bool
  | .processed _ _ _ st _ _ => st == "VERIFIED"
  | .errored _ _ _ => false

/-- `r.verificationStatus === 'FAILED'`. -/
def ItemOutcome.isFailedEntry : ItemOutcome → Bool
  | .processed _ _ _ st _ _ => st == "FAILED"
  | .errored _ _ _ => false

def ItemOutcome.docHash? : ItemOutcome → Option String
  | .processed _ _ h _ _ _ => some h
  | .errored _ _ _ => none

structure KYCReport where
  verificationId : String
  totalDocuments : Nat
  verifiedDocuments : Nat
  failedDocuments : Nat
  documentHashes : List String
  verificationResults : List ItemOutcome
  overallStatus : String
  processedAt : String

inductive WorkerWriteContent
  | processedCopy (data : List Nat)
  | kycReport (report : KYCReport)
  | computedJson (deterministicOutputPath : String) (errorMessage : Option String)

structure WorkerWrite where
  path : String
  content : WorkerWriteContent

structure WorkerEnv where
  iexecOut : String
  bulkSliceSize : Option Int
  itemResult : Nat → Except String WorkerItem
  inputFilesNumber : Nat
  inputFileName : Nat → String
  inputFileRead : Nat → Except String (List Nat)
  resultWriteOk : Bool
  verificationId : String
  nowIso : String

/-- One iteration of the bulk loop: deserialize item `i`, hash and verify
it; the inner `catch` turns a thrown error into an error entry. -/
def processBulkItem (env : WorkerEnv) (i : Nat) : ItemOutcome :=
  match env.itemResult i with
  | .ok item =>
    let docHash := hashData item.documentData
    let (status, checks) :=
      performKYCVerification item.documentData item.documentType item.userId docHash
    .processed item.userId item.documentType docHash status checks env.nowIso
  | .error e => .errored i e env.nowIso

/-- `parseInt(IEXEC_BULK_SLICE_SIZE)` guarded by `bulkSize > 0` (`NaN > 0`
is false, modelled by `none`). -/
def bulkCount (env : WorkerEnv) : Nat :=
  match env.bulkSliceSize with
  | some k => if k > 0 then k.toNat else 0
  | none => 0

/-- The bulk loop runs `i = 1 .. bulkSize` and pushes one entry per item. -/
def bulkResults (env : WorkerEnv) : List ItemOutcome :=
  (List.range (bulkCount env)).map (fun j => processBulkItem env (j + 1))

/-- The input-file loop from index `i`, with `fuel` iterations left: reads
and copies each file, collecting its SHA-256 hex digest; a read/copy
failure throws, so later iterations are skipped but earlier copies
remain written. -/
def inputFilesFrom (env : WorkerEnv) (i : Nat) :
    Nat → List WorkerWrite × List String × Option String
  | 0 => ([], [], none)
  | fuel + 1 =>
    match env.inputFileRead i with
    | .error e => ([], [], some e)
    | .ok data =>
      let w : WorkerWrite :=
        { path := env.iexecOut ++ "/processed_" ++ env.inputFileName i
          content := .processedCopy data }
      let (ws, hs, err) := inputFilesFrom env (i + 1) fuel
      (w :: ws, bytesToHex (sha256 data) :: hs, err)

/-- The worker `main`: the full list of file writes of one invocation.
The `finally` block appends the `computed.json` completion descriptor on
every path; the top-level `catch` replaces its content with the error
marker object. -/
def workerMain (env : WorkerEnv) : List WorkerWrite :=
  let results := bulkResults env
  let (fileWrites, fileHashes, fileErr) := inputFilesFrom env 1 env.inputFilesNumber
  let errorComputed : WorkerWrite :=
    { path := env.iexecOut ++ "/computed.json"
      content := .computedJson env.iexecOut (some "Oops something went wrong") }
  match fileErr with
  | some _ => fileWrites ++ [errorComputed]
  | none =>
    let itemHashes := results.filterMap ItemOutcome.docHash?
    let report : KYCReport :=
      { verificationId := env.verificationId
        totalDocuments := results.length
        verifiedDocuments := (results.filter ItemOutcome.isVerifiedEntry).length
        failedDocuments := (results.filter ItemOutcome.isFailedEntry).length
        documentHashes := itemHashes ++ fileHashes
        verificationResults := results
        overallStatus :=
          if results.all ItemOutcome.isVerifiedEntry then "ALL_VERIFIED"
          else "PARTIAL_VERIFICATION"
        processedAt := env.nowIso }
    if env.resultWriteOk then
      fileWrites ++
        [{ path := env.iexecOut ++ "/kyc-verification-result.json"
           content := .kycReport report },
         { path := env.iexecOut ++ "/computed.json"
           content := .computedJson (env.iexecOut ++ "/kyc-verification-result.json") none }]
    else
      fileWrites ++ [errorComputed]

/-! ## Helper lemmas -/

/-- A "1"/"0" signal string compares to "1" exactly as the underlying
boolean. -/
theorem signal_beq_one (c : Bool) : ((if c then "1" else "0" : String) == "1") = c := by
  cases c <;> rfl

/-- `verifyZKProof` on a structurally well-formed artifact (64-character
digest, at least one signal) reads the first public signal. -/
theorem verifyZKProof_wellformed (proof : ZKProof) (ct : ZKCircuitType)
    (hlen : proof.proof.length = 64) (hsig : proof.publicSignals ≠ []) :
    verifyZKProof proof ct =
      { isValid := proof.publicSignals.headD "" == "1"
        nullifierHash := proof.nullifierHash
        publicOutputs := proof.publicSignals } := by
  have h1 : (proof.proof != "") = true := by
    rw [bne_iff_ne]
    intro h
    rw [h] at hlen
    exact absurd hlen (by decide)
  have h2 : (proof.proof.length == 64) = true := by simp [hlen]
  have h3 : decide (proof.publicSignals.length > 0) = true := by
    simpa using List.length_pos.mpr hsig
  unfold verifyZKProof
  rw [h1, h2, h3]
  rfl

/-! ## Claim theorems -/

/-- C5: for every proof artifact and circuit type, `verifyZKProof` (a total
function, hence it never throws) returns `isValid = false` with empty
`publicOutputs` and the artifact's nullifierHash whenever the digest is
empty or not 64 characters wide or the signal list is empty; otherwise it
returns `isValid` iff `publicSignals[0] = "1"` with `publicOutputs` equal
to the artifact's publicSignals. -/
theorem C5_verify_structural_check (proof : ZKProof) (ct : ZKCircuitType) :
    ((proof.proof = "" ∨ proof.proof.length ≠ 64 ∨ proof.publicSignals = []) →
      verifyZKProof proof ct =
        { isValid := false, nullifierHash := proof.nullifierHash, publicOutputs := [] }) ∧
    (proof.proof.length = 64 → proof.publicSignals ≠ [] →
      verifyZKProof proof ct =
        { isValid := proof.publicSignals.headD "" == "1"
          nullifierHash := proof.nullifierHash
          publicOutputs := proof.publicSignals }) := by
  constructor
  · intro hbad
    have hfalse : ((proof.proof != "") && proof.proof.length == 64 &&
        decide (proof.publicSignals.length > 0)) = false := by
      rcases hbad with h | h | h
      · simp [h]
      · simp [h]
      · simp [h]
    unfold verifyZKProof
    rw [hfalse]
    rfl
  · exact verifyZKProof_wellformed proof ct

/-- C5 witness: concrete malformed artifact (empty digest, no signals) and
concrete well-formed artifact. -/
theorem C5_witness :
    (("" : String) = "" ∨ ("" : String).length ≠ 64 ∨ ([] : List String) = []) ∧
    verifyZKProof ⟨"", [], "n"⟩ .full_kyc = ⟨false, "n", []⟩ ∧
    (hashData "x").length = 64 ∧ (["1"] : List String) ≠ [] ∧
    verifyZKProof ⟨hashData "x", ["1"], "n"⟩ .age_verification = ⟨true, "n", ["1"]⟩ := by
  refine ⟨Or.inl rfl, ?_, hashData_length "x", by decide, ?_⟩
  · exact (C5_verify_structural_check ⟨"", [], "n"⟩ .full_kyc).1 (Or.inl rfl)
  · have h := (C5_verify_structural_check ⟨hashData "x", ["1"], "n"⟩ .age_verification).2
      (hashData_length "x") (by decide)
    simpa using h

/-- C4: `generateDocumentValidityProof` emits `[isValid, hasMinimumValidity]`
where `isValid = "1"` iff the expiry instant is strictly after now and
`hasMinimumValidity = "1"` iff the floored number of days until expiry is
strictly greater than 30; consequently expiry = today + 31 days gives
hasMinimumValidity "1", today + 29 days gives "0", and yesterday gives
isValid "0". -/
theorem C4_document_validity_signals (parseDate : String → JSDate)
    (expiryDate documentType userAddress : String) (today : JSDate) :
    ((generateDocumentValidityProof parseDate expiryDate documentType userAddress today).publicSignals =
      [if (parseDate expiryDate).ms > today.ms then "1" else "0",
       if Int.fdiv ((parseDate expiryDate).ms - today.ms) 86400000 > 30 then "1" else "0"]) ∧
    ((parseDate expiryDate).ms = today.ms + 31 * 86400000 →
      (generateDocumentValidityProof parseDate expiryDate documentType userAddress today).publicSignals.getD 1 "" = "1") ∧
    ((parseDate expiryDate).ms = today.ms + 29 * 86400000 →
      (generateDocumentValidityProof parseDate expiryDate documentType userAddress today).publicSignals.getD 1 "" = "0") ∧
    ((parseDate expiryDate).ms = today.ms - 86400000 →
      (generateDocumentValidityProof parseDate expiryDate documentType userAddress today).publicSignals.headD "" = "0") := by
  refine ⟨?_, ?_, ?_, ?_⟩
  · simp [generateDocumentValidityProof]
  · intro h
    have hd : (parseDate expiryDate).ms - today.ms = 31 * 86400000 := by omega
    simp [generateDocumentValidityProof, hd]
  · intro h
    have hd : (parseDate expiryDate).ms - today.ms = 29 * 86400000 := by omega
    simp [generateDocumentValidityProof, hd]
  · intro h
    have hd : ¬ ((parseDate expiryDate).ms > today.ms) := by omega
    simp [generateDocumentValidityProof, hd]

/-- C4 witness: concrete expiry instants 31 days ahead, 29 days ahead and
one day behind a concrete "now". -/
theorem C4_witness :
    ((fun _ => (⟨2024, 7, 2, 1000 + 31 * 86400000⟩ : JSDate)) "e").ms = (1000 : Int) + 31 * 86400000 ∧
    (generateDocumentValidityProof (fun _ => ⟨2024, 7, 2, 1000 + 31 * 86400000⟩) "e" "passport" "0xa"
      ⟨2024, 6, 1, 1000⟩).publicSignals.getD 1 "" = "1" ∧
    ((fun _ => (⟨2024, 6, 30, 1000 + 29 * 86400000⟩ : JSDate)) "e").ms = (1000 : Int) + 29 * 86400000 ∧
    (generateDocumentValidityProof (fun _ => ⟨2024, 6, 30, 1000 + 29 * 86400000⟩) "e" "passport" "0xa"
      ⟨2024, 6, 1, 1000⟩).publicSignals.getD 1 "" = "0" ∧
    ((fun _ => (⟨2024, 5, 31, 1000 - 86400000⟩ : JSDate)) "e").ms = (1000 : Int) - 86400000 ∧
    (generateDocumentValidityProof (fun _ => ⟨2024, 5, 31, 1000 - 86400000⟩) "e" "passport" "0xa"
      ⟨2024, 6, 1, 1000⟩).publicSignals.headD "" = "0" := by
  refine ⟨by norm_num, ?_, by norm_num, ?_, by norm_num, ?_⟩
  · exact (C4_document_validity_signals (fun _ => ⟨2024, 7, 2, 1000 + 31 * 86400000⟩) "e" "passport"
      "0xa" ⟨2024, 6, 1, 1000⟩).2.1 (by norm_num)
  · exact (C4_document_validity_signals (fun _ => ⟨2024, 6, 30, 1000 + 29 * 86400000⟩) "e" "passport"
      "0xa" ⟨2024, 6, 1, 1000⟩).2.2.1 (by norm_num)
  · exact (C4_document_validity_signals (fun _ => ⟨2024, 5, 31, 1000 - 86400000⟩) "e" "passport"
      "0xa" ⟨2024, 6, 1, 1000⟩).2.2.2 (by norm_num)

/-! Calendar helpers used only to state the age-boundary claim ("a date of
birth 18 years minus one day before today"). -/

def isLeapYear (y : Int) : Bool := (y % 4 == 0 && y % 100 != 0) || y % 400 == 0

def daysInMonth (y m : Int) : Int :=
  if m = 2 then (if isLeapYear y then 29 else 28)
  else if m = 4 ∨ m = 6 ∨ m = 9 ∨ m = 11 then 30 else 31

/-- The calendar day after `(y, m, d)`. -/
def nextDayTriple (y m d : Int) : Int × Int × Int :=
  if d < daysInMonth y m then (y, m, d + 1)
  else if m < 12 then (y, m + 1, 1)
  else (y + 1, 1, 1)

/-- Helper: the first public signal of the age proof as a function of the
computed age. -/
theorem ageProof_head (parseDate : String → JSDate) (dob : String) (minimumAge : Nat)
    (u : String) (today : JSDate) :
    (generateAgeVerificationProof parseDate dob minimumAge u today).publicSignals.headD "" =
      if computedAge (parseDate dob) today ≥ (minimumAge : Int) then "1" else "0" := by
  simp [generateAgeVerificationProof]

/-- C3: `generateAgeVerificationProof` computes age by calendar-aware
subtraction — the year difference is decremented by one exactly when the
birthday month/day has not yet been reached this year — and the first
public signal is "1" iff that age is at least `minimumAge`.  A date of
birth exactly 18 years before today (same month and day, year minus 18)
with minimumAge 18 yields "1"; a date of birth 18 years minus one day
before today (the calendar day after today-minus-18-years) yields "0". -/
theorem C3_age_calendar_subtraction (parseDate : String → JSDate) (dob : String)
    (minimumAge : Nat) (u : String) (today : JSDate) :
    (computedAge (parseDate dob) today =
      (today.year - (parseDate dob).year) -
        (if today.month < (parseDate dob).month ∨
            (today.month = (parseDate dob).month ∧ today.day < (parseDate dob).day)
         then 1 else 0)) ∧
    ((generateAgeVerificationProof parseDate dob minimumAge u today).publicSignals.headD "" = "1" ↔
      computedAge (parseDate dob) today ≥ (minimumAge : Int)) ∧
    ((parseDate dob).year + 18 = today.year → (parseDate dob).month = today.month →
      (parseDate dob).day = today.day →
      (generateAgeVerificationProof parseDate dob 18 u today).publicSignals.headD "" = "1") ∧
    (((parseDate dob).year, (parseDate dob).month, (parseDate dob).day) =
        nextDayTriple (today.year - 18) today.month today.day →
      (generateAgeVerificationProof parseDate dob 18 u today).publicSignals.headD "" = "0") := by
  refine ⟨?_, ?_, ?_, ?_⟩
  · simp only [computedAge]
    split_ifs with h1 h2 h3 <;> omega
  · rw [ageProof_head]
    split_ifs with h
    · simp [h]
    · constructor
      · intro h0
        exact absurd h0 (by decide)
      · intro hge
        exact absurd hge h
  · intro hy hm hd
    have hage : computedAge (parseDate dob) today = 18 := by
      simp only [computedAge]
      split_ifs with h1 <;> omega
    rw [ageProof_head, hage]
    decide
  · intro htriple
    have hage : computedAge (parseDate dob) today = 17 := by
      unfold nextDayTriple at htriple
      split_ifs at htriple with hsplit hsplit2 <;>
        rw [Prod.mk.injEq, Prod.mk.injEq] at htriple <;>
        simp only [computedAge] <;>
        split_ifs with h1 <;> omega
    rw [ageProof_head, hage]
    decide

/-- C3 witness: today 2024-06-01; an 18th-birthday date of birth
(2006-06-01) yields signal "1", a date of birth one day later
(2006-06-02, i.e. 18 years minus one day old) yields signal "0". -/
theorem C3_witness :
    ((2006 : Int) + 18 = 2024) ∧
    (generateAgeVerificationProof (fun _ => ⟨2006, 6, 1, 0⟩) "2006-06-01" 18 "0xa"
      ⟨2024, 6, 1, 0⟩).publicSignals.headD "" = "1" ∧
    (((2006 : Int), (6 : Int), (2 : Int)) = nextDayTriple (2024 - 18) 6 1) ∧
    (generateAgeVerificationProof (fun _ => ⟨2006, 6, 2, 0⟩) "2006-06-02" 18 "0xa"
      ⟨2024, 6, 1, 0⟩).publicSignals.headD "" = "0" := by
  refine ⟨by norm_num, ?_, by decide, ?_⟩
  · exact (C3_age_calendar_subtraction (fun _ => ⟨2006, 6, 1, 0⟩) "2006-06-01" 18 "0xa"
      ⟨2024, 6, 1, 0⟩).2.2.1 (by norm_num) rfl rfl
  · exact (C3_age_calendar_subtraction (fun _ => ⟨2006, 6, 2, 0⟩) "2006-06-02" 18 "0xa"
      ⟨2024, 6, 1, 0⟩).2.2.2 (by decide)

/-! ## C1: full-KYC public signals -/

/-- The nationality signal as claim C1 words it: membership in
`allowedNationalities` whenever that list is provided, "1" otherwise.
(Stated from the claim, for comparison with the code.) -/
def claimedNationalitySignal (allowedNationalities : Option (List String))
    (nationality : String) : String :=
  match allowedNationalities with
  | some allowed => if allowed.contains nationality then "1" else "0"
  | none => "1"

/-- A concrete identity record used by several concrete instances. -/
def sampleRecord : KYCData :=
  { documentType := "passport"
    documentNumber := "P1234567"
    fullName := "Alice Smith"
    dateOfBirth := "2000-01-01"
    nationality := "Canada"
    expiryDate := "2026-01-01" }

/-- C1 counterexample: with a provided but empty `allowedNationalities`
list, the code emits isNationalityValid = "1" (the `length > 0` guard
skips the membership test), while the claim's reading — membership in the
provided list — demands "0", since nothing is a member of `[]`. -/
theorem C1_counterexample :
    (generateFullKYCProof (fun _ => ⟨2000, 1, 1, 0⟩) sampleRecord "0xabc"
        { minimumAge := 18, allowedNationalities := some [] }
        ⟨2024, 6, 1, 0⟩ 0).publicSignals.getD 3 "" = "1" ∧
    claimedNationalitySignal (some []) sampleRecord.nationality = "0" := by
  exact ⟨rfl, rfl⟩

/-- C1 (amended): `generateFullKYCProof` returns publicSignals
`[isFullyValid, isAgeValid, isDocValid, isNationalityValid, minimumAge]`
in that fixed order, where isNationalityValid is membership of the
record's nationality in `allowedNationalities` when that list is provided
AND non-empty (a provided empty list passes as "1") and "1" otherwise,
and isFullyValid = "1" exactly when the age, document and nationality
booleans all hold (all 8 combinations, by the boolean `&&`). -/
theorem C1_full_kyc_signal_composition (parseDate : String → JSDate) (kycData : KYCData)
    (u : String) (minimumAge : Nat) (allowed : Option (List String)) (today : JSDate)
    (ts : Int) :
    (generateFullKYCProof parseDate kycData u ⟨minimumAge, allowed⟩ today ts).publicSignals =
      [if (decide (computedAge (parseDate kycData.dateOfBirth) today ≥ (minimumAge : Int)) &&
           decide ((parseDate kycData.expiryDate).ms > today.ms) &&
           (match allowed with
            | some l => if l.length > 0 then l.contains kycData.nationality else true
            | none => true)) then "1" else "0",
       if computedAge (parseDate kycData.dateOfBirth) today ≥ (minimumAge : Int) then "1" else "0",
       if (parseDate kycData.expiryDate).ms > today.ms then "1" else "0",
       if (match allowed with
           | some l => if l.length > 0 then l.contains kycData.nationality else true
           | none => true) then "1" else "0",
       toString minimumAge] := by
  simp only [generateFullKYCProof, generateAgeVerificationProof, generateDocumentValidityProof,
    List.headD_cons, signal_beq_one]
  simp

/-! ## C2: nullifier stability -/

/-- `sampleRecord` with a different document number. -/
def sampleRecordAltDoc : KYCData := { sampleRecord with documentNumber := "P7654321" }

/-- C2: the full-KYC nullifierHash equals
`generateNullifierHash (documentType ++ ":" ++ hashData documentNumber) subject`
and therefore depends only on the record's documentType, documentNumber and
the subject: any two generations agreeing on those three (any dates,
timestamps, options, remaining fields) collide.  At concrete inputs,
changing the subject or the document number changes the nullifier (the
underlying digests differ; as a cryptographic-hash property this holds with
overwhelming probability, not universally). -/
theorem C2_nullifier_document_binding :
    (∀ (parse1 parse2 : String → JSDate) (r1 r2 : KYCData) (u : String)
        (o1 o2 : FullKYCOptions) (t1 t2 : JSDate) (ts1 ts2 : Int),
      r1.documentType = r2.documentType → r1.documentNumber = r2.documentNumber →
      (generateFullKYCProof parse1 r1 u o1 t1 ts1).nullifierHash =
          generateNullifierHash (r1.documentType ++ ":" ++ hashData r1.documentNumber) u ∧
        (generateFullKYCProof parse1 r1 u o1 t1 ts1).nullifierHash =
          (generateFullKYCProof parse2 r2 u o2 t2 ts2).nullifierHash) ∧
    (generateFullKYCProof (fun _ => ⟨2000, 1, 1, 0⟩) sampleRecord "0xaaaa" ⟨18, none⟩
        ⟨2024, 6, 1, 0⟩ 0).nullifierHash ≠
      (generateFullKYCProof (fun _ => ⟨2000, 1, 1, 0⟩) sampleRecord "0xbbbb" ⟨18, none⟩
        ⟨2024, 6, 1, 0⟩ 0).nullifierHash ∧
    (generateFullKYCProof (fun _ => ⟨2000, 1, 1, 0⟩) sampleRecord "0xaaaa" ⟨18, none⟩
        ⟨2024, 6, 1, 0⟩ 0).nullifierHash ≠
      (generateFullKYCProof (fun _ => ⟨2000, 1, 1, 0⟩) sampleRecordAltDoc "0xaaaa" ⟨18, none⟩
        ⟨2024, 6, 1, 0⟩ 0).nullifierHash := by
  refine ⟨?_, by decide, by decide⟩
  intro parse1 parse2 r1 r2 u o1 o2 t1 t2 ts1 ts2 hdt hdn
  have h1 : ∀ (parse : String → JSDate) (o : FullKYCOptions) (t : JSDate) (ts : Int)
      (r : KYCData), (generateFullKYCProof parse r u o t ts).nullifierHash =
        generateNullifierHash (r.documentType ++ ":" ++ hashData r.documentNumber) u := by
    intro parse o t ts r
    rfl
  refine ⟨h1 parse1 o1 t1 ts1 r1, ?_⟩
  rw [h1 parse1 o1 t1 ts1 r1, h1 parse2 o2 t2 ts2 r2, hdt, hdn]

/-- C2 witness: two generations from the same record and subject at
different timestamps and dates yield the same nullifier, equal to the
documented derivation. -/
theorem C2_witness :
    sampleRecord.documentType = sampleRecord.documentType ∧
    sampleRecord.documentNumber = sampleRecord.documentNumber ∧
    (generateFullKYCProof (fun _ => ⟨2000, 1, 1, 0⟩) sampleRecord "0xaaaa" ⟨18, none⟩
        ⟨2024, 6, 1, 0⟩ 111).nullifierHash =
      generateNullifierHash (sampleRecord.documentType ++ ":" ++
        hashData sampleRecord.documentNumber) "0xaaaa" ∧
    (generateFullKYCProof (fun _ => ⟨2000, 1, 1, 0⟩) sampleRecord "0xaaaa" ⟨18, none⟩
        ⟨2024, 6, 1, 0⟩ 111).nullifierHash =
      (generateFullKYCProof (fun _ => ⟨2001, 2, 2, 5⟩) sampleRecord "0xaaaa" ⟨21, some ["Canada"]⟩
        ⟨2025, 7, 2, 9⟩ 222).nullifierHash := by
  refine ⟨rfl, rfl, ?_, ?_⟩
  · exact ((C2_nullifier_document_binding.1 (fun _ => ⟨2000, 1, 1, 0⟩) (fun _ => ⟨2001, 2, 2, 5⟩)
      sampleRecord sampleRecord "0xaaaa" ⟨18, none⟩ ⟨21, some ["Canada"]⟩ ⟨2024, 6, 1, 0⟩
      ⟨2025, 7, 2, 9⟩ 111 222) rfl rfl).1
  · exact ((C2_nullifier_document_binding.1 (fun _ => ⟨2000, 1, 1, 0⟩) (fun _ => ⟨2001, 2, 2, 5⟩)
      sampleRecord sampleRecord "0xaaaa" ⟨18, none⟩ ⟨21, some ["Canada"]⟩ ⟨2024, 6, 1, 0⟩
      ⟨2025, 7, 2, 9⟩ 111 222) rfl rfl).2

/-! ## C9: network-profile selection -/

/-- C9: the `part_001` version of `getNetworkConfig` realizes the claimed
mapping (42161 → mainnet, 421614 → Sepolia, unrecognized → Sepolia, the
returned profile's chainId matching the recognized argument), but the
`part_004` version returns the Arbitrum *mainnet* profile (chainId 42161)
for argument 421614, contradicting the claim at that input. -/
theorem C9_get_network_config :
    Part001.getNetworkConfig 42161 = ARBITRUM_MAINNET_CONFIG ∧
    (Part001.getNetworkConfig 42161).chainId = 42161 ∧
    Part001.getNetworkConfig 421614 = ARBITRUM_SEPOLIA_CONFIG ∧
    (Part001.getNetworkConfig 421614).chainId = 421614 ∧
    (∀ c : Nat, c ≠ 42161 → c ≠ 421614 → Part001.getNetworkConfig c = ARBITRUM_SEPOLIA_CONFIG) ∧
    Part004.getNetworkConfig 421614 = ARBITRUM_MAINNET_CONFIG ∧
    (Part004.getNetworkConfig 421614).chainId = 42161 := by
  refine ⟨rfl, rfl, rfl, rfl, ?_, rfl, rfl⟩
  intro c h1 _h2
  simp [Part001.getNetworkConfig, h1]

/-- C9 witness: an unrecognized chain ID fails closed to the Sepolia
profile. -/
theorem C9_witness :
    (7 : Nat) ≠ 42161 ∧ (7 : Nat) ≠ 421614 ∧
    Part001.getNetworkConfig 7 = ARBITRUM_SEPOLIA_CONFIG :=
  ⟨by decide, by decide, C9_get_network_config.2.2.2.2.1 7 (by decide) (by decide)⟩

/-! ## C10: generated artifacts always pass the structural check -/

/-- C10: every artifact produced by the three generators has a 64-character
digest (`hashData` output) and a non-empty signal list, so for every
circuit type `verifyZKProof` echoes its publicSignals and nullifierHash,
with `isValid` exactly when its first public signal is "1". -/
theorem C10_generated_artifacts_verify (parseDate : String → JSDate) (today : JSDate)
    (ct : ZKCircuitType) :
    (∀ (dob : String) (minAge : Nat) (u : String),
      (generateAgeVerificationProof parseDate dob minAge u today).proof.length = 64 ∧
      (generateAgeVerificationProof parseDate dob minAge u today).publicSignals ≠ [] ∧
      verifyZKProof (generateAgeVerificationProof parseDate dob minAge u today) ct =
        { isValid :=
            (generateAgeVerificationProof parseDate dob minAge u today).publicSignals.headD "" == "1"
          nullifierHash := (generateAgeVerificationProof parseDate dob minAge u today).nullifierHash
          publicOutputs := (generateAgeVerificationProof parseDate dob minAge u today).publicSignals }) ∧
    (∀ (e dt u : String),
      (generateDocumentValidityProof parseDate e dt u today).proof.length = 64 ∧
      (generateDocumentValidityProof parseDate e dt u today).publicSignals ≠ [] ∧
      verifyZKProof (generateDocumentValidityProof parseDate e dt u today) ct =
        { isValid :=
            (generateDocumentValidityProof parseDate e dt u today).publicSignals.headD "" == "1"
          nullifierHash := (generateDocumentValidityProof parseDate e dt u today).nullifierHash
          publicOutputs := (generateDocumentValidityProof parseDate e dt u today).publicSignals }) ∧
    (∀ (r : KYCData) (u : String) (o : FullKYCOptions) (ts : Int),
      (generateFullKYCProof parseDate r u o today ts).proof.length = 64 ∧
      (generateFullKYCProof parseDate r u o today ts).publicSignals ≠ [] ∧
      verifyZKProof (generateFullKYCProof parseDate r u o today ts) ct =
        { isValid := (generateFullKYCProof parseDate r u o today ts).publicSignals.headD "" == "1"
          nullifierHash := (generateFullKYCProof parseDate r u o today ts).nullifierHash
          publicOutputs := (generateFullKYCProof parseDate r u o today ts).publicSignals }) := by
  refine ⟨?_, ?_, ?_⟩
  · intro dob minAge u
    have hp : (generateAgeVerificationProof parseDate dob minAge u today).proof.length = 64 :=
      hashData_length _
    have hs : (generateAgeVerificationProof parseDate dob minAge u today).publicSignals ≠ [] := by
      simp [generateAgeVerificationProof]
    exact ⟨hp, hs, verifyZKProof_wellformed _ ct hp hs⟩
  · intro e dt u
    have hp : (generateDocumentValidityProof parseDate e dt u today).proof.length = 64 :=
      hashData_length _
    have hs : (generateDocumentValidityProof parseDate e dt u today).publicSignals ≠ [] := by
      simp [generateDocumentValidityProof]
    exact ⟨hp, hs, verifyZKProof_wellformed _ ct hp hs⟩
  · intro r u o ts
    have hp : (generateFullKYCProof parseDate r u o today ts).proof.length = 64 :=
      hashData_length _
    have hs : (generateFullKYCProof parseDate r u o today ts).publicSignals ≠ [] := by
      simp [generateFullKYCProof]
    exact ⟨hp, hs, verifyZKProof_wellformed _ ct hp hs⟩

/-! ## C8: worker completion descriptor -/

/-- Is a write the `computed.json` completion descriptor? -/
def isCompletionWrite (w : WorkerWrite) : Bool :=
  match w.content with
  | .computedJson _ _ => true
  | _ => false

/-- The input-file copies are never completion descriptors. -/
theorem inputFiles_no_completion (env : WorkerEnv) :
    ∀ (fuel i : Nat), ((inputFilesFrom env i fuel).1).filter isCompletionWrite = [] := by
  intro fuel
  induction fuel with
  | zero =>
    intro i
    rfl
  | succ f ih =>
    intro i
    unfold inputFilesFrom
    cases h : env.inputFileRead i with
    | error e => simp
    | ok data =>
      rcases hrec : inputFilesFrom env (i + 1) f with ⟨ws, hs, err⟩
      have hws : ws.filter isCompletionWrite = [] := by
        have := ih (i + 1)
        rw [hrec] at this
        exact this
      simp [hrec, hws, isCompletionWrite]

/-- C8: every invocation of the worker writes exactly one completion
descriptor, at `IEXEC_OUT/computed.json`, carrying a
deterministic-output-path (the report path on success, `IEXEC_OUT` plus
the error message on any failure path); and one item's error inside the
bulk loop does not disturb the processing of the other items (the batch
still yields one outcome per item). -/
theorem C8_worker_completion_descriptor (env : WorkerEnv) (i : Nat) (e : String) :
    (∃ p m, (workerMain env).filter isCompletionWrite =
        [{ path := env.iexecOut ++ "/computed.json", content := .computedJson p m }] ∧
      ((m = none ∧ p = env.iexecOut ++ "/kyc-verification-result.json") ∨
       (m = some "Oops something went wrong" ∧ p = env.iexecOut))) ∧
    ((bulkResults env).length = bulkCount env) ∧
    (∀ j, j ≠ i →
      processBulkItem
        { env with itemResult := fun k => if k = i then .error e else env.itemResult k } j =
        processBulkItem env j) ∧
    ((bulkResults
        { env with itemResult := fun k => if k = i then .error e else env.itemResult k }).length =
      (bulkResults env).length) := by
  refine ⟨?_, ?_, ?_, ?_⟩
  · rcases hrec : inputFilesFrom env 1 env.inputFilesNumber with ⟨ws, hs, err⟩
    have hws : ws.filter isCompletionWrite = [] := by
      have := inputFiles_no_completion env env.inputFilesNumber 1
      rw [hrec] at this
      exact this
    unfold workerMain
    rw [hrec]
    cases err with
    | some e2 =>
      refine ⟨env.iexecOut, some "Oops something went wrong", ?_, Or.inr ⟨rfl, rfl⟩⟩
      simp [List.filter_append, hws, isCompletionWrite]
    | none =>
      by_cases hw : env.resultWriteOk
      · refine ⟨env.iexecOut ++ "/kyc-verification-result.json", none, ?_, Or.inl ⟨rfl, rfl⟩⟩
        simp [hw, List.filter_append, hws, isCompletionWrite]
      · refine ⟨env.iexecOut, some "Oops something went wrong", ?_, Or.inr ⟨rfl, rfl⟩⟩
        simp [hw, List.filter_append, hws, isCompletionWrite]
  · simp [bulkResults]
  · intro j hj
    simp [processBulkItem, hj]
  · simp [bulkResults, bulkCount]

/-- A concrete worker environment for the C8 witness. -/
def sampleWorkerEnv : WorkerEnv :=
  { iexecOut := "/iexec_out"
    bulkSliceSize := some 3
    itemResult := fun _ =>
      .ok { documentData := "AB123456 John Smith 01/02/2003"
            documentType := "passport"
            userId := "user-1" }
    inputFilesNumber := 0
    inputFileName := fun _ => "f"
    inputFileRead := fun _ => .ok [1, 2, 3]
    resultWriteOk := true
    verificationId := "vid"
    nowIso := "2024-06-01T00:00:00.000Z" }

/-- C8 witness: a concrete batch with item 1 failing; item 2 is processed
unchanged and the outcome count is preserved. -/
theorem C8_witness :
    ((2 : Nat) ≠ 1) ∧
    processBulkItem
      { sampleWorkerEnv with
        itemResult := fun k => if k = 1 then .error "boom" else sampleWorkerEnv.itemResult k } 2 =
      processBulkItem sampleWorkerEnv 2 ∧
    (bulkResults sampleWorkerEnv).length = bulkCount sampleWorkerEnv := by
  refine ⟨by decide, ?_, ?_⟩
  · exact (C8_worker_completion_descriptor sampleWorkerEnv 1 "boom").2.2.1 2 (by decide)
  · exact (C8_worker_completion_descriptor sampleWorkerEnv 1 "boom").2.1

/-! ## C6: local verification failure blocks the remote path -/

/-- C6: in any run of `startVerification` that reaches proof generation
(encryption succeeded) and whose locally generated full-KYC proof fails
local verification, the run produces the failure trace: it transitions to
`failed` with the fixed error message, invokes none of the remote
operations nor the simulation fallback (empty event list), and the
`zkProof`, `verificationResult` and `transactionHash` fields stay null. -/
theorem C6_local_failure_blocks_remote (env : HookEnv) (kycData : KYCData) (u enc : String)
    (henc : env.encryptResult = .ok enc)
    (h : (verifyZKProof
        (generateFullKYCProof env.parseDate kycData u ⟨18, none⟩ env.today env.nowMs)
        .full_kyc).isValid = false) :
    startVerification env kycData (some u) =
      ([initialKYCState,
        { initialKYCState with status := .encrypting, currentStep := 2 },
        { initialKYCState with
          status := .encrypting, currentStep := 2,
          protectedData := some ⟨u, createCommitment kycData, env.nowMs, some enc⟩ },
        { initialKYCState with
          status := .computing, currentStep := 3,
          protectedData := some ⟨u, createCommitment kycData, env.nowMs, some enc⟩ },
        { initialKYCState with
          status := .failed, currentStep := 3,
          protectedData := some ⟨u, createCommitment kycData, env.nowMs, some enc⟩,
          error := some "ZK proof verification failed. Please check your information." }], []) ∧
    ({ initialKYCState with
        status := .failed, currentStep := 3,
        protectedData := some ⟨u, createCommitment kycData, env.nowMs, some enc⟩,
        error := some "ZK proof verification failed. Please check your information." } :
          KYCVerificationState).zkProof = none ∧
    ({ initialKYCState with
        status := .failed, currentStep := 3,
        protectedData := some ⟨u, createCommitment kycData, env.nowMs, some enc⟩,
        error := some "ZK proof verification failed. Please check your information." } :
          KYCVerificationState).verificationResult = none ∧
    ({ initialKYCState with
        status := .failed, currentStep := 3,
        protectedData := some ⟨u, createCommitment kycData, env.nowMs, some enc⟩,
        error := some "ZK proof verification failed. Please check your information." } :
          KYCVerificationState).transactionHash = none := by
  refine ⟨?_, rfl, rfl, rfl⟩
  simp [startVerification, henc, h]

/-- A concrete environment whose parse makes the subject a minor, so the
local proof fails verification. -/
def failEnv : HookEnv :=
  { parseDate := fun _ => ⟨2010, 1, 1, 1262304000000⟩
    today := ⟨2024, 6, 1, 1717200000000⟩
    nowMs := 1717200000000
    encryptResult := .ok "enc"
    provider := true
    chainId := some 421614
    providerTestOk := true
    initOk := true
    coreOk := true
    protectResult := .ok "0xprotected"
    grantOk := true
    executeResult := .ok ⟨true, 0, "ph", "es", ⟨true, true, true⟩⟩
    txHash := "0xtx" }

/-- C6 witness: a concrete under-age run fails local verification and
produces no remote events. -/
theorem C6_witness :
    failEnv.encryptResult = .ok "enc" ∧
    (verifyZKProof (generateFullKYCProof failEnv.parseDate sampleRecord "0xabc" ⟨18, none⟩
        failEnv.today failEnv.nowMs) .full_kyc).isValid = false ∧
    (startVerification failEnv sampleRecord (some "0xabc")).2 = [] := by
  refine ⟨rfl, by decide, ?_⟩
  have h := (C6_local_failure_blocks_remote failEnv sampleRecord "0xabc" "enc" rfl (by decide)).1
  rw [h]

/-! ## C7: state machine monotonicity, freezing and reset -/

/-- C7: a fully successful run (remote path, all steps succeeding) visits
(status, currentStep) pairs in exactly the order idle/0, encrypting/2,
computing/3, verifying/4, submitting/5, completed/6 (duplicates from
artifact-only updates keep the step), so the visited step values 2,3,4,5,6
are strictly increasing over the 7-item step list; whenever a state in any
trace is `failed`, its `currentStep` equals the previous state's (the index
freezes at the failing step); `reset()` restores idle/0 with all artifacts
and the error cleared. -/
theorem C7_step_monotonicity_and_reset :
    (∀ (env : HookEnv) (kycData : KYCData) (u enc addr : String) (vr : VerificationResult),
      env.encryptResult = .ok enc →
      (verifyZKProof (generateFullKYCProof env.parseDate kycData u ⟨18, none⟩
          env.today env.nowMs) .full_kyc).isValid = true →
      env.provider = true →
      env.chainId = some 421614 →
      env.providerTestOk = true →
      env.initOk = true →
      env.coreOk = true →
      env.protectResult = .ok addr →
      env.grantOk = true →
      env.executeResult = .ok vr →
      vr.isValid = true →
      ((startVerification env kycData (some u)).1.map (fun s => (s.status, s.currentStep))) =
        [(.idle, 0), (.encrypting, 2), (.encrypting, 2), (.computing, 3), (.computing, 3),
         (.verifying, 4), (.verifying, 4), (.submitting, 5), (.completed, 6)]) ∧
    (∀ (env : HookEnv) (kycData : KYCData) (ua : Option String),
      List.Chain' (fun a b => b.status = .failed → b.currentStep = a.currentStep)
        (startVerification env kycData ua).1) ∧
    (reset.status = .idle ∧ reset.currentStep = 0 ∧ reset.protectedData = none ∧
      reset.zkProof = none ∧ reset.verificationResult = none ∧
      reset.transactionHash = none ∧ reset.error = none) ∧
    VERIFICATION_STEPS.length = 7 := by
  refine ⟨?_, ?_, ⟨rfl, rfl, rfl, rfl, rfl, rfl, rfl⟩, rfl⟩
  · intro env kycData u enc addr vr henc hzk hprov hchain hpt hinit hcore hprot hgrant hexec hvr
    simp [startVerification, verifyingStep, initialKYCState, henc, hzk, hprov, hchain, hpt,
      hinit, hcore, hprot, hgrant, hexec, hvr]
  · intro env kycData ua
    cases ua with
    | none => simp [startVerification]
    | some u =>
      cases henc : env.encryptResult with
      | error e => simp [startVerification, henc]
      | ok enc =>
        cases hz : (verifyZKProof (generateFullKYCProof env.parseDate kycData u ⟨18, none⟩
            env.today env.nowMs) ZKCircuitType.full_kyc).isValid with
        | false => simp [startVerification, henc, hz]
        | true =>
          rcases hv : verifyingStep env kycData u with ⟨r, evs⟩
          cases r with
          | error e => simp [startVerification, henc, hz, hv]
          | ok vr =>
            cases hvr : vr.isValid with
            | false => simp [startVerification, henc, hz, hv, hvr]
            | true => simp [startVerification, henc, hz, hv, hvr]

/-- A concrete environment for a fully successful remote run: adult
subject, far-future expiry, all backend calls succeeding. -/
def passEnv : HookEnv :=
  { parseDate := fun s =>
      if s = "2000-01-01" then ⟨2000, 1, 1, 946684800000⟩ else ⟨2026, 1, 1, 1767225600000⟩
    today := ⟨2024, 6, 1, 1717200000000⟩
    nowMs := 1717200000000
    encryptResult := .ok "enc"
    provider := true
    chainId := some 421614
    providerTestOk := true
    initOk := true
    coreOk := true
    protectResult := .ok "0xprotected"
    grantOk := true
    executeResult := .ok ⟨true, 0, "ph", "es", ⟨true, true, true⟩⟩
    txHash := "0xtx" }

/-- `failEnv` with the encryption step rejecting. -/
def encErrEnv : HookEnv := { failEnv with encryptResult := .error "boom" }

/-- C7 witness: the concrete successful run walks steps 0,2,2,3,3,4,4,5,6,
and in a concrete failing run (encryption rejects) the failed state keeps
the step value of its predecessor. -/
theorem C7_witness :
    passEnv.encryptResult = .ok "enc" ∧
    (verifyZKProof (generateFullKYCProof passEnv.parseDate sampleRecord "0xabc" ⟨18, none⟩
        passEnv.today passEnv.nowMs) .full_kyc).isValid = true ∧
    passEnv.provider = true ∧ passEnv.chainId = some 421614 ∧
    ((startVerification passEnv sampleRecord (some "0xabc")).1.map
        (fun s => (s.status, s.currentStep))) =
      [(.idle, 0), (.encrypting, 2), (.encrypting, 2), (.computing, 3), (.computing, 3),
       (.verifying, 4), (.verifying, 4), (.submitting, 5), (.completed, 6)] ∧
    ({ initialKYCState with status := .failed, currentStep := 2, error := some "boom" } :
        KYCVerificationState).currentStep =
      ({ initialKYCState with status := .encrypting, currentStep := 2 } :
        KYCVerificationState).currentStep := by
  refine ⟨rfl, by decide, rfl, rfl, ?_, ?_⟩
  · exact C7_step_monotonicity_and_reset.1 passEnv sampleRecord "0xabc" "enc" "0xprotected"
      ⟨true, 0, "ph", "es", ⟨true, true, true⟩⟩ rfl (by decide) rfl rfl rfl rfl rfl rfl rfl rfl rfl
  · have hb := C7_step_monotonicity_and_reset.2.1 encErrEnv sampleRecord (some "0xabc")
    have hrun : (startVerification encErrEnv sampleRecord (some "0xabc")).1 =
        [initialKYCState,
         { initialKYCState with status := .encrypting, currentStep := 2 },
         { initialKYCState with status := .failed, currentStep := 2, error := some "boom" }] := by
      simp [startVerification, encErrEnv, failEnv]
    have hb2 := hrun ▸ hb
    exact (List.chain'_cons.mp (List.chain'_cons.mp hb2).2).1 rfl
